import Mathlib

/-
  Verification development for AzureKinect2lsl (AKlsl.cpp).

  The source file holds two near-duplicate versions of `main`:
  variant 1 (lines 1-164) and variant 2 (lines 164-333).  Both are
  embedded below; definitions carry a `v1_` / `v2_` prefix where the
  variants differ and a single name where they agree.

  Scalar sensor values (C `float`) are never computed with, only copied,
  so the embedding is parametric in the value type `V`; witnesses
  instantiate `V := Int`.
-/

/-- Component of `k4a_float3_t` (the `.xyz` view): three scalar fields. -/
structure K4aFloat3 (V : Type) where
  x : V
  y : V
  z : V

/-- Component of `k4a_quaternion_t` (the `.wxyz` view): four scalar fields. -/
structure K4aQuaternion (V : Type) where
  w : V
  x : V
  y : V
  z : V

/-- One entry of `k4abt_skeleton_t.joints`: a position and an orientation. -/
structure K4abtJoint (V : Type) where
  position : K4aFloat3 V
  orientation : K4aQuaternion V

/-- A skeleton: the `joints` array of `k4abt_skeleton_t`, indexed by joint id. -/
def K4abtSkeleton (V : Type) : Type := Nat → K4abtJoint V

/-- One entry of the joint table: a joint identifier and a display name. -/
structure JointSpec where
  id : Nat
  name : String
deriving DecidableEq

/-- Modelled from the spec: `g_jointNames` lives in `BodyTrackingHelpers.h`,
which is not under `src/`.  The spec describes it as a fixed, ordered,
immutable table of joint identifier/display-name pairs ("constructed once at
process start; never mutated") that is "the single source of truth" for
channel order and pose-vector slot order.  The Azure Kinect Body Tracking
SDK used by the code defines 32 joints (`K4ABT_JOINT_COUNT`), matching the
hardcoded `32 * 7` channel count of the descriptor, so the table is modelled
as the SDK's 32-joint sequence with ids 0..31. -/
def g_jointNames : List JointSpec :=
  [⟨0, "PELVIS"⟩, ⟨1, "SPINE_NAVEL"⟩, ⟨2, "SPINE_CHEST"⟩, ⟨3, "NECK"⟩,
   ⟨4, "CLAVICLE_LEFT"⟩, ⟨5, "SHOULDER_LEFT"⟩, ⟨6, "ELBOW_LEFT"⟩,
   ⟨7, "WRIST_LEFT"⟩, ⟨8, "HAND_LEFT"⟩, ⟨9, "HANDTIP_LEFT"⟩,
   ⟨10, "THUMB_LEFT"⟩, ⟨11, "CLAVICLE_RIGHT"⟩, ⟨12, "SHOULDER_RIGHT"⟩,
   ⟨13, "ELBOW_RIGHT"⟩, ⟨14, "WRIST_RIGHT"⟩, ⟨15, "HAND_RIGHT"⟩,
   ⟨16, "HANDTIP_RIGHT"⟩, ⟨17, "THUMB_RIGHT"⟩, ⟨18, "HIP_LEFT"⟩,
   ⟨19, "KNEE_LEFT"⟩, ⟨20, "ANKLE_LEFT"⟩, ⟨21, "FOOT_LEFT"⟩,
   ⟨22, "HIP_RIGHT"⟩, ⟨23, "KNEE_RIGHT"⟩, ⟨24, "ANKLE_RIGHT"⟩,
   ⟨25, "FOOT_RIGHT"⟩, ⟨26, "HEAD"⟩, ⟨27, "NOSE"⟩, ⟨28, "EYE_LEFT"⟩,
   ⟨29, "EAR_LEFT"⟩, ⟨30, "EYE_RIGHT"⟩, ⟨31, "EAR_RIGHT"⟩]

/-- Size of the pose buffer: `float data[7 * 31]` (line 130 and line 262). -/
def dataBufferLen : Nat := 7 * 31

/-- Write one scalar into the pose buffer at a given offset
(one `data[...] = ...;` statement). -/
def upd {V : Type} (b : Nat → V) (i : Nat) (v : V) : Nat → V :=
  fun n => if n = i then v else b n

/-- The seven writes the loop body performs for table index `j` and joint
value `jt` (lines 140-146 / 287-293): `data[j*7 + 0] = position.xyz.x;`
through `data[j*7 + 6] = orientation.wxyz.z;`. -/
def writeJoint {V : Type} (b : Nat → V) (j : Nat) (jt : K4abtJoint V) : Nat → V :=
  upd (upd (upd (upd (upd (upd (upd b
    (j * 7 + 0) jt.position.x)
    (j * 7 + 1) jt.position.y)
    (j * 7 + 2) jt.position.z)
    (j * 7 + 3) jt.orientation.w)
    (j * 7 + 4) jt.orientation.x)
    (j * 7 + 5) jt.orientation.y)
    (j * 7 + 6) jt.orientation.z

/-- The extraction loop (lines 131-147 / 282-295) starting at table index
`j`: for each remaining `JointSpec` it reads the joint at `it->first`
(= `spec.id`) of the skeleton and performs the seven writes, then moves to
index `j + 1`. -/
def extractFrom {V : Type} (sk : K4abtSkeleton V) :
    List JointSpec → Nat → (Nat → V) → Nat → V
  | [], _, b => b
  | s :: rest, j, b => extractFrom sk rest (j + 1) (writeJoint b j (sk s.id))

/-- The whole extraction pass over a buffer `b`: the loop started at
index 0 (`int j = std::distance(g_jointNames.begin(), it)` makes `j` the
iteration index in variant 1; variant 2 counts `j = 0; ...; j = j + 1`). -/
def extract {V : Type} (sk : K4abtSkeleton V) (table : List JointSpec)
    (b : Nat → V) : Nat → V :=
  extractFrom sk table 0 b

theorem writeJoint_lookup_lt {V : Type} (b : Nat → V) (j : Nat)
    (jt : K4abtJoint V) (n : Nat) (hn : n < j * 7) :
    writeJoint b j jt n = b n := by
  unfold writeJoint upd
  repeat rw [if_neg (by omega)]

theorem extractFrom_lookup_lt {V : Type} (sk : K4abtSkeleton V) :
    ∀ (table : List JointSpec) (j : Nat) (b : Nat → V) (n : Nat),
      n < j * 7 → extractFrom sk table j b n = b n := by
  intro table
  induction table with
  | nil => intro j b n _; rfl
  | cons s rest ih =>
    intro j b n hn
    show extractFrom sk rest (j + 1) (writeJoint b j (sk s.id)) n = b n
    rw [ih (j + 1) _ n (by omega), writeJoint_lookup_lt b j _ n hn]

/-- Values written by `writeJoint` at its own block of seven offsets. -/
theorem writeJoint_lookup_self {V : Type} (b : Nat → V) (j : Nat)
    (jt : K4abtJoint V) :
    writeJoint b j jt (j * 7 + 0) = jt.position.x ∧
    writeJoint b j jt (j * 7 + 1) = jt.position.y ∧
    writeJoint b j jt (j * 7 + 2) = jt.position.z ∧
    writeJoint b j jt (j * 7 + 3) = jt.orientation.w ∧
    writeJoint b j jt (j * 7 + 4) = jt.orientation.x ∧
    writeJoint b j jt (j * 7 + 5) = jt.orientation.y ∧
    writeJoint b j jt (j * 7 + 6) = jt.orientation.z := by
  unfold writeJoint upd
  refine ⟨?_, ?_, ?_, ?_, ?_, ?_, ?_⟩ <;>
    (repeat rw [if_neg (by omega)]) <;> rw [if_pos rfl]

/-- Joint values land at their block, independent of the initial buffer. -/
theorem extractFrom_lookup {V : Type} (sk : K4abtSkeleton V) :
    ∀ (table : List JointSpec) (j d : Nat) (b : Nat → V)
      (h : d < table.length),
      extractFrom sk table j b ((j + d) * 7 + 0)
          = (sk (table.get ⟨d, h⟩).id).position.x ∧
      extractFrom sk table j b ((j + d) * 7 + 1)
          = (sk (table.get ⟨d, h⟩).id).position.y ∧
      extractFrom sk table j b ((j + d) * 7 + 2)
          = (sk (table.get ⟨d, h⟩).id).position.z ∧
      extractFrom sk table j b ((j + d) * 7 + 3)
          = (sk (table.get ⟨d, h⟩).id).orientation.w ∧
      extractFrom sk table j b ((j + d) * 7 + 4)
          = (sk (table.get ⟨d, h⟩).id).orientation.x ∧
      extractFrom sk table j b ((j + d) * 7 + 5)
          = (sk (table.get ⟨d, h⟩).id).orientation.y ∧
      extractFrom sk table j b ((j + d) * 7 + 6)
          = (sk (table.get ⟨d, h⟩).id).orientation.z := by
  intro table
  induction table with
  | nil => intro j d b h; exact absurd h (by simp)
  | cons s rest ih =>
    intro j d b h
    match d with
    | 0 =>
      show _ ∧ _ ∧ _ ∧ _ ∧ _ ∧ _ ∧ _
      have hfr : ∀ m, m < 7 →
          extractFrom sk (s :: rest) j b ((j + 0) * 7 + m)
            = writeJoint b j (sk s.id) (j * 7 + m) := by
        intro m hm
        show extractFrom sk rest (j + 1) (writeJoint b j (sk s.id)) _ = _
        rw [extractFrom_lookup_lt sk rest (j + 1) _ _ (by omega)]
        have harith : (j + 0) * 7 + m = j * 7 + m := by omega
        rw [harith]
      obtain ⟨h0, h1, h2, h3, h4, h5, h6⟩ :=
        writeJoint_lookup_self b j (sk s.id)
      exact ⟨by rw [hfr 0 (by omega)]; exact h0,
             by rw [hfr 1 (by omega)]; exact h1,
             by rw [hfr 2 (by omega)]; exact h2,
             by rw [hfr 3 (by omega)]; exact h3,
             by rw [hfr 4 (by omega)]; exact h4,
             by rw [hfr 5 (by omega)]; exact h5,
             by rw [hfr 6 (by omega)]; exact h6⟩
    | d + 1 =>
      have hlen : d < rest.length := by
        have := h
        simp only [List.length_cons] at this
        omega
      have heq : ∀ m : Nat, ((j + 1) + d) * 7 + m = (j + (d + 1)) * 7 + m := by
        intro m; omega
      have hrec := ih (j + 1) d (writeJoint b j (sk s.id)) hlen
      rw [heq 0, heq 1, heq 2, heq 3, heq 4, heq 5, heq 6] at hrec
      exact hrec

/-- Channel value formats of the LSL C API (the two the program touches). -/
inductive ChannelFormat
  | cft_float32
  | cft_double64
deriving DecidableEq

/-- Arguments of the `lsl_create_streaminfo` call. -/
structure StreamInfo where
  sname : String
  contentType : String
  channelCount : Nat
  nominalSrate : Nat
  channelFormat : ChannelFormat
  sourceId : String
deriving DecidableEq

/-- The `lsl_create_streaminfo` call of variant 1 (lines 59 and 64): rate 10
when the CUDA tracker was created, rate 4 on the CPU fallback; channel count
`32 * 7` and format `cft_double64` in both cases. -/
def v1_streaminfo (cudaOk : Bool) : StreamInfo :=
  { sname := "Azure-Kinect", contentType := "MoCap", channelCount := 32 * 7,
    nominalSrate := if cudaOk then 10 else 4,
    channelFormat := ChannelFormat.cft_double64, sourceId := "325wqer4354" }

/-- The `lsl_create_streaminfo` call of variant 2 (lines 209 and 214):
identical arguments to variant 1's. -/
def v2_streaminfo (cudaOk : Bool) : StreamInfo :=
  { sname := "Azure-Kinect", contentType := "MoCap", channelCount := 32 * 7,
    nominalSrate := if cudaOk then 10 else 4,
    channelFormat := ChannelFormat.cft_double64, sourceId := "325wqer4354" }

/-- The suffix list of variant 1 (line 76); variant 2 spells the same seven
suffixes out in its seven `lsl_append_child` lines (lines 228-234). -/
def suffixList : List String :=
  ["_posx", "_posy", "_posz", "_oriw", "_orix", "_oriy", "_oriz"]

/-- Channel metadata built by variant 1's nested loops (lines 77-86): for
each joint, in table order, seven `channel` nodes carrying a
`name = jointName + suffix` value and a `unit = "mm"` value. -/
def v1_buildChannels : List JointSpec → List (String × String)
  | [] => []
  | s :: rest =>
      suffixList.map (fun suf => (s.name ++ suf, "mm")) ++ v1_buildChannels rest

/-- Channel metadata built by variant 2's loop (lines 226-235): for each
joint, in table order, seven child nodes named `jointName + suffix`
(no per-channel unit; a single `unit = "mm"` sits on `desc`, line 224). -/
def v2_buildChannels : List JointSpec → List String
  | [] => []
  | s :: rest =>
      suffixList.map (fun suf => s.name ++ suf) ++ v2_buildChannels rest

theorem v1_buildChannels_length :
    ∀ table : List JointSpec, (v1_buildChannels table).length = 7 * table.length := by
  intro table
  induction table with
  | nil => rfl
  | cons s rest ih =>
    show (suffixList.map _ ++ v1_buildChannels rest).length = _
    rw [List.length_append, List.length_map, ih]
    simp [suffixList, List.length_cons]
    omega

theorem v2_buildChannels_length :
    ∀ table : List JointSpec, (v2_buildChannels table).length = 7 * table.length := by
  intro table
  induction table with
  | nil => rfl
  | cons s rest ih =>
    show (suffixList.map _ ++ v2_buildChannels rest).length = _
    rw [List.length_append, List.length_map, ih]
    simp [suffixList, List.length_cons]
    omega

/-- Label at flat position `7*j + k` of variant 2's channel list. -/
theorem v2_buildChannels_get :
    ∀ (table : List JointSpec) (j k : Nat) (hj : j < table.length) (hk : k < 7),
      (v2_buildChannels table)[7 * j + k]?
        = some ((table.get ⟨j, hj⟩).name ++ suffixList.get ⟨k, by simp [suffixList]; omega⟩) := by
  intro table
  induction table with
  | nil => intro j k hj hk; exact absurd hj (by simp)
  | cons s rest ih =>
    intro j k hj hk
    match j with
    | 0 =>
      show (suffixList.map _ ++ v2_buildChannels rest)[7 * 0 + k]? = _
      have hksmall : 7 * 0 + k < (suffixList.map (fun suf => s.name ++ suf)).length := by
        rw [List.length_map]; simp [suffixList]; omega
      rw [List.getElem?_append_left hksmall]
      have : 7 * 0 + k = k := by omega
      rw [this]
      rw [List.getElem?_map]
      have hk7 : k < suffixList.length := by simp [suffixList]; omega
      rw [List.getElem?_eq_getElem hk7]
      simp [List.get]
    | j + 1 =>
      have hlen : j < rest.length := by
        have := hj
        simp only [List.length_cons] at this
        omega
      show (suffixList.map _ ++ v2_buildChannels rest)[7 * (j + 1) + k]? = _
      have hbig : (suffixList.map (fun suf => s.name ++ suf)).length ≤ 7 * (j + 1) + k := by
        rw [List.length_map]; simp [suffixList]; omega
      rw [List.getElem?_append_right hbig]
      have harith : 7 * (j + 1) + k - (suffixList.map (fun suf => s.name ++ suf)).length
          = 7 * j + k := by
        rw [List.length_map]; simp [suffixList]; omega
      rw [harith, ih j k hlen hk]
      rfl

/-- Label in the name slot at flat position `7*j + k` of variant 1's list. -/
theorem v1_buildChannels_get :
    ∀ (table : List JointSpec) (j k : Nat) (hj : j < table.length) (hk : k < 7),
      (v1_buildChannels table)[7 * j + k]?
        = some ((table.get ⟨j, hj⟩).name ++ suffixList.get ⟨k, by simp [suffixList]; omega⟩, "mm") := by
  intro table
  induction table with
  | nil => intro j k hj hk; exact absurd hj (by simp)
  | cons s rest ih =>
    intro j k hj hk
    match j with
    | 0 =>
      show (suffixList.map _ ++ v1_buildChannels rest)[7 * 0 + k]? = _
      have hksmall : 7 * 0 + k < (suffixList.map (fun suf => (s.name ++ suf, "mm"))).length := by
        rw [List.length_map]; simp [suffixList]; omega
      rw [List.getElem?_append_left hksmall]
      have : 7 * 0 + k = k := by omega
      rw [this]
      rw [List.getElem?_map]
      have hk7 : k < suffixList.length := by simp [suffixList]; omega
      rw [List.getElem?_eq_getElem hk7]
      simp [List.get]
    | j + 1 =>
      have hlen : j < rest.length := by
        have := hj
        simp only [List.length_cons] at this
        omega
      show (suffixList.map _ ++ v1_buildChannels rest)[7 * (j + 1) + k]? = _
      have hbig : (suffixList.map (fun suf => (s.name ++ suf, "mm"))).length ≤ 7 * (j + 1) + k := by
        rw [List.length_map]; simp [suffixList]; omega
      rw [List.getElem?_append_right hbig]
      have harith : 7 * (j + 1) + k - (suffixList.map (fun suf => (s.name ++ suf, "mm"))).length
          = 7 * j + k := by
        rw [List.length_map]; simp [suffixList]; omega
      rw [harith, ih j k hlen hk]
      rfl

/-- Tracker processing modes the code mentions.  `gpuDefaultMode` stands for
the processing mode field of `K4ABT_TRACKER_CONFIG_DEFAULT` (a GPU mode,
not the CPU mode). -/
inductive ProcessingMode
  | gpuCuda
  | gpuDefaultMode
  | cpu
deriving DecidableEq

/-- Outcome environment for the two `k4abt_tracker_create` attempts: whether
the first (CUDA-configured) call succeeds, and whether the second call —
made only when the first fails — succeeds. -/
structure TrackerEnv where
  cudaOk : Bool
  secondOk : Bool
deriving DecidableEq

/-- Result of the negotiation phase: the value of the outer `tracker`
variable when the code after the `if` resumes (`some mode` for a live
handle created with that mode, `none` for the initial `NULL`), the
processing mode the second create attempt was configured with (if one was
made), the advertised sample-rate hint, and whether control reaches the
capture loop (`exit(1)` in `VERIFY` means it does not). -/
structure NegotiationResult where
  tracker : Option ProcessingMode
  retryMode : Option ProcessingMode
  srateHint : Nat
  reachesLoop : Bool
  exitCode : Option Int
deriving DecidableEq

/-- Variant 1's negotiation (lines 46-65): try CUDA; on failure switch the
same config to `K4ABT_TRACKER_PROCESSING_MODE_CPU` and retry under
`VERIFY`, which calls `exit(1)` when the retry fails. -/
def v1_negotiate (env : TrackerEnv) : NegotiationResult :=
  if env.cudaOk then
    { tracker := some ProcessingMode.gpuCuda, retryMode := none,
      srateHint := 10, reachesLoop := true, exitCode := none }
  else if env.secondOk then
    { tracker := some ProcessingMode.cpu, retryMode := some ProcessingMode.cpu,
      srateHint := 4, reachesLoop := true, exitCode := none }
  else
    { tracker := none, retryMode := some ProcessingMode.cpu,
      srateHint := 4, reachesLoop := false, exitCode := some 1 }

/-- Variant 2's negotiation (lines 196-215): try CUDA; on failure declare a
fresh local `tracker` and a fresh `K4ABT_TRACKER_CONFIG_DEFAULT` config
(its processing mode is the default GPU mode, not CPU), call
`k4abt_tracker_create` into the shadowing local without checking the
result, and fall through to the loop either way — the outer `tracker`
stays `NULL`. -/
def v2_negotiate (env : TrackerEnv) : NegotiationResult :=
  if env.cudaOk then
    { tracker := some ProcessingMode.gpuCuda, retryMode := none,
      srateHint := 10, reachesLoop := true, exitCode := none }
  else
    { tracker := none, retryMode := some ProcessingMode.gpuDefaultMode,
      srateHint := 4, reachesLoop := true, exitCode := none }

/-- Outcome type of `k4a_wait_result_t`. -/
inductive WaitResult
  | succeeded
  | timeout
  | failed
deriving DecidableEq

/-- What the collaborators return for one iteration of the capture loop:
the result of `k4a_device_get_capture`, of `k4abt_tracker_enqueue_capture`,
of `k4abt_tracker_pop_result`, the value of `k4abt_frame_get_num_bodies`,
and the skeleton `k4abt_frame_get_body_skeleton` fills in. -/
structure FrameInput (V : Type) where
  captureResult : WaitResult
  queueResult : WaitResult
  popResult : WaitResult
  numBodies : Nat
  skeleton : K4abtSkeleton V

/-- Counters observed on the collaborators, plus the format of each
`lsl_push_sample_*` call in program order. -/
structure Totals where
  capturesAcquired : Nat
  capturesReleased : Nat
  resultsAcquired : Nat
  resultsReleased : Nat
  pushFormats : List ChannelFormat
deriving DecidableEq

def initialTotals : Totals := ⟨0, 0, 0, 0, []⟩

def acquireCapture (t : Totals) : Totals :=
  { t with capturesAcquired := t.capturesAcquired + 1 }

def releaseCapture (t : Totals) : Totals :=
  { t with capturesReleased := t.capturesReleased + 1 }

def acquireResult (t : Totals) : Totals :=
  { t with resultsAcquired := t.resultsAcquired + 1 }

def releaseResult (t : Totals) : Totals :=
  { t with resultsReleased := t.resultsReleased + 1 }

/-- Format tag of the push call both variants use: `lsl_push_sample_f`
(line 150 / line 297) takes a `float` buffer. -/
def pushCallFormat : ChannelFormat := ChannelFormat.cft_float32

def pushSample (t : Totals) : Totals :=
  { t with pushFormats := t.pushFormats ++ [pushCallFormat] }

/-- How one iteration of the loop body ends: fall through to the loop
condition, `break`, or `return`/`exit` from the process. -/
inductive StepExit
  | next
  | breakLoop
  | exitProcess (code : Int)
deriving DecidableEq

/-- One iteration of variant 1's loop body (lines 103-153).  Fallible calls
with no `else` branch (`k4a_device_get_capture`, `k4abt_tracker_pop_result`)
fall through to the loop condition.  When the pop succeeds, the body checks
`num_bodies > 1` (returning `-1`), then runs the extraction loop and calls
`lsl_push_sample_f` unconditionally — also when `num_bodies == 0`. -/
def v1_body {V : Type} (t : Totals) (inp : FrameInput V) : Totals × StepExit :=
  if inp.captureResult = WaitResult.succeeded then
    let t := releaseCapture (acquireCapture t)
    if inp.queueResult ≠ WaitResult.succeeded then
      (t, StepExit.breakLoop)
    else if inp.popResult = WaitResult.succeeded then
      let t := acquireResult t
      if inp.numBodies > 1 then
        (t, StepExit.exitProcess (-1))
      else
        (releaseResult (pushSample t), StepExit.next)
    else
      (t, StepExit.next)
  else
    (t, StepExit.next)

/-- One iteration of variant 2's loop body (lines 244-322).  Every fallible
call has explicit failure branches that `break`; `num_bodies > 1` returns
`-1`; the per-body `for` loop runs `num_bodies` times, and
`lsl_push_sample_f` is called unconditionally after it — also when
`num_bodies == 0`. -/
def v2_body {V : Type} (t : Totals) (inp : FrameInput V) : Totals × StepExit :=
  match inp.captureResult with
  | WaitResult.succeeded =>
    let t := releaseCapture (acquireCapture t)
    match inp.queueResult with
    | WaitResult.timeout => (t, StepExit.breakLoop)
    | WaitResult.failed => (t, StepExit.breakLoop)
    | WaitResult.succeeded =>
      match inp.popResult with
      | WaitResult.succeeded =>
        let t := acquireResult t
        if inp.numBodies > 1 then
          (t, StepExit.exitProcess (-1))
        else
          (releaseResult (pushSample t), StepExit.next)
      | WaitResult.timeout => (t, StepExit.breakLoop)
      | WaitResult.failed => (t, StepExit.breakLoop)
  | WaitResult.timeout => (t, StepExit.breakLoop)
  | WaitResult.failed => (t, StepExit.breakLoop)

/-- How a run of the loop ends.  `exited code cleanedUp totals`: the
process returned with `code`; `cleanedUp` records whether the shutdown
sequence (`k4abt_tracker_shutdown`, `k4abt_tracker_destroy`,
`k4a_device_stop_cameras`, `k4a_device_close`) ran — it does after a
`break` or a normal loop exit, not on the in-loop `return -1`.
`running fc totals`: the supplied inputs were exhausted with the loop
still live (frame counter `fc`). -/
inductive RunOutcome
  | exited (code : Int) (cleanedUp : Bool) (totals : Totals)
  | running (frameCount : Nat) (totals : Totals)
deriving DecidableEq

/-- Variant 1's `do ... while (++frame_count < 100)` (lines 100-154) driven
by a list of per-iteration collaborator outcomes, followed by the cleanup
code and `return 0` (lines 156-163). -/
def v1_run {V : Type} : List (FrameInput V) → Nat → Totals → RunOutcome
  | [], fc, t => RunOutcome.running fc t
  | inp :: rest, fc, t =>
    match v1_body t inp with
    | (t', StepExit.exitProcess c) => RunOutcome.exited c false t'
    | (t', StepExit.breakLoop) => RunOutcome.exited 0 true t'
    | (t', StepExit.next) =>
      if fc + 1 < 100 then v1_run rest (fc + 1) t'
      else RunOutcome.exited 0 true t'

/-- Variant 2's `do ... while (frame_count < 100)` (lines 242-324): the
`frame_count++` on line 248 is commented out, so the counter never moves.
Followed by cleanup and `return 0` (lines 326-333). -/
def v2_run {V : Type} : List (FrameInput V) → Nat → Totals → RunOutcome
  | [], fc, t => RunOutcome.running fc t
  | inp :: rest, fc, t =>
    match v2_body t inp with
    | (t', StepExit.exitProcess c) => RunOutcome.exited c false t'
    | (t', StepExit.breakLoop) => RunOutcome.exited 0 true t'
    | (t', StepExit.next) =>
      if fc < 100 then v2_run rest fc t'
      else RunOutcome.exited 0 true t'

/-- A frame whose every collaborator call succeeds, with one tracked body. -/
def goodFrame : FrameInput Int :=
  { captureResult := WaitResult.succeeded, queueResult := WaitResult.succeeded,
    popResult := WaitResult.succeeded, numBodies := 1,
    skeleton := fun _ => ⟨⟨0, 0, 0⟩, ⟨1, 0, 0, 0⟩⟩ }

/-- A frame whose tracking result holds no body at all. -/
def zeroBodyFrame : FrameInput Int :=
  { goodFrame with numBodies := 0 }

/-- A frame whose tracking result holds two bodies. -/
def twoBodyFrame : FrameInput Int :=
  { goodFrame with numBodies := 2 }

/-- A frame on which `k4a_device_get_capture` fails. -/
def captureFailFrame : FrameInput Int :=
  { goodFrame with captureResult := WaitResult.failed }

/-- The run has neither returned nor broken out of the loop. -/
def stillLive : RunOutcome → Prop
  | RunOutcome.running _ _ => True
  | RunOutcome.exited _ _ _ => False

/-- Totals carried by a run outcome. -/
def runTotals : RunOutcome → Totals
  | RunOutcome.exited _ _ t => t
  | RunOutcome.running _ t => t

/-- Concrete skeleton for witnesses: joint `i` carries position
`(i, i+1, i+2)` and orientation `(i+3, i+4, i+5, i+6)`. -/
def skW : K4abtSkeleton Int := fun i =>
  ⟨⟨Int.ofNat i, Int.ofNat (i + 1), Int.ofNat (i + 2)⟩,
   ⟨Int.ofNat (i + 3), Int.ofNat (i + 4), Int.ofNat (i + 5), Int.ofNat (i + 6)⟩⟩

/-- Concrete two-entry joint table for witnesses. -/
def tableW : List JointSpec := [⟨5, "A"⟩, ⟨2, "B"⟩]

/-- Concrete initial buffer for witnesses. -/
def bW : Nat → Int := fun _ => 0

/-- C1: for every skeleton, every joint table and every table index `j`,
the extraction loop writes exactly the seven values position x, y, z and
orientation w, x, y, z of the joint named by `table[j]` at offsets
`j*7 .. j*7+6` of the pose vector, in that order; the result at those
offsets does not depend on the initial buffer `b` (no state retained
between calls), and the property holds at every index, so every JointSpec
is visited on every call. -/
theorem extractor_writes_seven_values_per_joint {V : Type}
    (sk : K4abtSkeleton V) (table : List JointSpec) (b : Nat → V)
    (j : Nat) (h : j < table.length) :
    extract sk table b (j * 7 + 0) = (sk (table.get ⟨j, h⟩).id).position.x ∧
    extract sk table b (j * 7 + 1) = (sk (table.get ⟨j, h⟩).id).position.y ∧
    extract sk table b (j * 7 + 2) = (sk (table.get ⟨j, h⟩).id).position.z ∧
    extract sk table b (j * 7 + 3) = (sk (table.get ⟨j, h⟩).id).orientation.w ∧
    extract sk table b (j * 7 + 4) = (sk (table.get ⟨j, h⟩).id).orientation.x ∧
    extract sk table b (j * 7 + 5) = (sk (table.get ⟨j, h⟩).id).orientation.y ∧
    extract sk table b (j * 7 + 6) = (sk (table.get ⟨j, h⟩).id).orientation.z := by
  have hmain := extractFrom_lookup sk table 0 j b h
  have heq : ∀ m : Nat, (0 + j) * 7 + m = j * 7 + m := by intro m; omega
  rw [heq 0, heq 1, heq 2, heq 3, heq 4, heq 5, heq 6] at hmain
  exact hmain

/-- Witness for C1 at the concrete table `tableW`, skeleton `skW`, buffer
`bW` and index 1: table entry 1 names joint id 2, whose position is
`(2, 3, 4)` and orientation `(5, 6, 7, 8)`. -/
theorem extractor_writes_seven_values_witness :
    1 < tableW.length ∧
    extract skW tableW bW (1 * 7 + 0) = 2 ∧
    extract skW tableW bW (1 * 7 + 3) = 5 ∧
    extract skW tableW bW (1 * 7 + 6) = 8 := by
  have h : 1 < tableW.length := by decide
  have hall := extractor_writes_seven_values_per_joint skW tableW bW 1 h
  refine ⟨h, ?_, ?_, ?_⟩
  · rw [hall.1]; rfl
  · rw [hall.2.2.2.1]; rfl
  · rw [hall.2.2.2.2.2.2]; rfl

/-- C2: for the joint table used by the program, both variants declare a
channel count of `7 * 32 = 7 × len(g_jointNames)`, the channel metadata
holds exactly `7 × len(g_jointNames)` entries, and the entry at flat
position `7*j + k` is the name of joint `j` followed by suffix `k` of
`_posx, _posy, _posz, _oriw, _orix, _oriy, _oriz` (variant 1 pairs each
with unit "mm"). -/
theorem descriptor_channel_count_and_labels (cudaOk : Bool) (j k : Nat)
    (hj : j < g_jointNames.length) (hk : k < suffixList.length) :
    (v1_streaminfo cudaOk).channelCount = 7 * g_jointNames.length ∧
    (v2_streaminfo cudaOk).channelCount = 7 * g_jointNames.length ∧
    (v1_buildChannels g_jointNames).length = 7 * g_jointNames.length ∧
    (v2_buildChannels g_jointNames).length = 7 * g_jointNames.length ∧
    (v1_buildChannels g_jointNames)[7 * j + k]?
      = some ((g_jointNames.get ⟨j, hj⟩).name ++ suffixList.get ⟨k, hk⟩, "mm") ∧
    (v2_buildChannels g_jointNames)[7 * j + k]?
      = some ((g_jointNames.get ⟨j, hj⟩).name ++ suffixList.get ⟨k, hk⟩) := by
  have hk7 : k < 7 := by
    have : suffixList.length = 7 := by decide
    omega
  refine ⟨rfl, rfl,
    v1_buildChannels_length g_jointNames, v2_buildChannels_length g_jointNames, ?_, ?_⟩
  · rw [v1_buildChannels_get g_jointNames j k hj hk7]
  · rw [v2_buildChannels_get g_jointNames j k hj hk7]

/-- Witness for C2 at the last joint and last suffix: flat position
`7*31 + 6` of variant 2's channel list is `EAR_RIGHT_oriz`, and the
declared channel count is 224. -/
theorem descriptor_channel_count_and_labels_witness :
    31 < g_jointNames.length ∧ 6 < suffixList.length ∧
    (v1_streaminfo true).channelCount = 7 * g_jointNames.length ∧
    (v2_buildChannels g_jointNames)[7 * 31 + 6]? = some "EAR_RIGHT_oriz" := by
  have hj : 31 < g_jointNames.length := by decide
  have hk : 6 < suffixList.length := by decide
  have h := descriptor_channel_count_and_labels true 31 6 hj hk
  refine ⟨hj, hk, h.1, ?_⟩
  rw [h.2.2.2.2.2]
  rfl

/-- C3 fails on the code: the pose buffer is declared `float data[7 * 31]`
(217 slots) while the descriptor declares `32 * 7 = 224` channels and the
joint table has 32 entries, so the buffer is not `7 × len(table)` long,
does not match the declared channel count, and the extractor's writes for
the last table index (j = 31, offsets 217..223) land outside the buffer. -/
theorem pose_buffer_shorter_than_channel_count :
    dataBufferLen ≠ (v1_streaminfo true).channelCount ∧
    dataBufferLen ≠ (v2_streaminfo false).channelCount ∧
    dataBufferLen ≠ 7 * g_jointNames.length ∧
    31 < g_jointNames.length ∧
    ¬ 31 * 7 + 0 < dataBufferLen := by decide

theorem v1_body_multi {V : Type} (t : Totals) (inp : FrameInput V)
    (hc : inp.captureResult = WaitResult.succeeded)
    (hq : inp.queueResult = WaitResult.succeeded)
    (hp : inp.popResult = WaitResult.succeeded)
    (hn : 1 < inp.numBodies) :
    v1_body t inp
      = (acquireResult (releaseCapture (acquireCapture t)),
         StepExit.exitProcess (-1)) := by
  unfold v1_body
  rw [if_pos hc, if_neg (show ¬inp.queueResult ≠ WaitResult.succeeded from
    fun hne => hne hq), if_pos hp, if_pos hn]

theorem v2_body_multi {V : Type} (t : Totals) (inp : FrameInput V)
    (hc : inp.captureResult = WaitResult.succeeded)
    (hq : inp.queueResult = WaitResult.succeeded)
    (hp : inp.popResult = WaitResult.succeeded)
    (hn : 1 < inp.numBodies) :
    v2_body t inp
      = (acquireResult (releaseCapture (acquireCapture t)),
         StepExit.exitProcess (-1)) := by
  unfold v2_body
  rw [hc, hq, hp]
  show (if inp.numBodies > 1 then _ else _) = _
  rw [if_pos hn]

/-- C4: a frame whose tracking result reports more than one body makes both
variants return `-1` from `main` at once: no sample is pushed for that
frame, no further input is consumed (so no sample is pushed for any later
frame), and the exit code `-1` is non-zero. -/
theorem multi_body_frame_aborts_session {V : Type}
    (inp : FrameInput V) (rest : List (FrameInput V)) (fc : Nat) (t : Totals)
    (hc : inp.captureResult = WaitResult.succeeded)
    (hq : inp.queueResult = WaitResult.succeeded)
    (hp : inp.popResult = WaitResult.succeeded)
    (hn : 1 < inp.numBodies) :
    (∃ t1, v1_run (inp :: rest) fc t = RunOutcome.exited (-1) false t1 ∧
       t1.pushFormats = t.pushFormats) ∧
    (∃ t2, v2_run (inp :: rest) fc t = RunOutcome.exited (-1) false t2 ∧
       t2.pushFormats = t.pushFormats) ∧
    (-1 : Int) ≠ 0 := by
  refine ⟨⟨acquireResult (releaseCapture (acquireCapture t)), ?_, ?_⟩,
          ⟨acquireResult (releaseCapture (acquireCapture t)), ?_, ?_⟩,
          by decide⟩
  · show v1_run (inp :: rest) fc t = _
    rw [v1_run, v1_body_multi t inp hc hq hp hn]
  · simp [acquireResult, releaseCapture, acquireCapture]
  · show v2_run (inp :: rest) fc t = _
    rw [v2_run, v2_body_multi t inp hc hq hp hn]
  · simp [acquireResult, releaseCapture, acquireCapture]

/-- Witness for C4 at a concrete two-body frame from a fresh state. -/
theorem multi_body_frame_aborts_session_witness :
    twoBodyFrame.captureResult = WaitResult.succeeded ∧
    twoBodyFrame.queueResult = WaitResult.succeeded ∧
    twoBodyFrame.popResult = WaitResult.succeeded ∧
    1 < twoBodyFrame.numBodies ∧
    ((∃ t1, v1_run [twoBodyFrame] 0 initialTotals
         = RunOutcome.exited (-1) false t1 ∧
       t1.pushFormats = initialTotals.pushFormats) ∧
     (∃ t2, v2_run [twoBodyFrame] 0 initialTotals
         = RunOutcome.exited (-1) false t2 ∧
       t2.pushFormats = initialTotals.pushFormats) ∧
     (-1 : Int) ≠ 0) :=
  ⟨rfl, rfl, rfl, by decide,
   multi_body_frame_aborts_session twoBodyFrame [] 0 initialTotals
     rfl rfl rfl (by decide)⟩

/-- C5 fails on the code: on a frame whose tracking result reports zero
bodies, both variants still call `lsl_push_sample_f` once (variant 1 after
an extraction pass that reads body 0 of a bodiless frame, variant 2 with
the buffer untouched by any body), then continue the loop. -/
theorem zero_body_frame_still_pushes :
    (v1_body initialTotals zeroBodyFrame).2 = StepExit.next ∧
    (v1_body initialTotals zeroBodyFrame).1.pushFormats.length = 1 ∧
    (v2_body initialTotals zeroBodyFrame).2 = StepExit.next ∧
    (v2_body initialTotals zeroBodyFrame).1.pushFormats.length = 1 := by
  decide

/-- C6 fails on the code: on the multi-body abort path both variants
`return -1` without releasing the tracking result they popped — one
TrackingResult acquired, zero released — while the raw capture was indeed
released once. -/
theorem multi_body_abort_leaks_tracking_result :
    (v1_body initialTotals twoBodyFrame).1.resultsAcquired = 1 ∧
    (v1_body initialTotals twoBodyFrame).1.resultsReleased = 0 ∧
    (v1_body initialTotals twoBodyFrame).2 = StepExit.exitProcess (-1) ∧
    (v1_body initialTotals twoBodyFrame).1.capturesAcquired = 1 ∧
    (v1_body initialTotals twoBodyFrame).1.capturesReleased = 1 ∧
    (v2_body initialTotals twoBodyFrame).1.resultsAcquired = 1 ∧
    (v2_body initialTotals twoBodyFrame).1.resultsReleased = 0 ∧
    (v2_body initialTotals twoBodyFrame).2 = StepExit.exitProcess (-1) := by
  decide

/-- A frame on which `k4abt_tracker_enqueue_capture` fails. -/
def queueFailFrame : FrameInput Int :=
  { goodFrame with queueResult := WaitResult.failed }

/-- A frame on which `k4abt_tracker_pop_result` fails. -/
def popFailFrame : FrameInput Int :=
  { goodFrame with popResult := WaitResult.failed }

set_option maxRecDepth 8192 in
/-- C7 as stated is false: after a mid-loop failure the process never exits
with a non-zero status, and in variant 1 capture-wait and pop-result
failures do not even stop the loop.  Concretely: variant 2 with a failing
first capture breaks out, runs the cleanup sequence and exits with status
0; variant 1 fed a failing capture followed by 99 good frames keeps
looping and pushes 99 further samples before ending normally. -/
theorem mid_loop_failure_exit_status_counterexample :
    v2_run [captureFailFrame] 0 initialTotals
      = RunOutcome.exited 0 true initialTotals ∧
    v1_run (captureFailFrame :: List.replicate 99 goodFrame) 0 initialTotals
      = RunOutcome.exited 0 true
          ⟨99, 99, 99, 99, List.replicate 99 ChannelFormat.cft_float32⟩ := by
  constructor
  · decide
  · decide

theorem v2_body_captureFail {V : Type} (t : Totals) (inp : FrameInput V)
    (hc : inp.captureResult ≠ WaitResult.succeeded) :
    v2_body t inp = (t, StepExit.breakLoop) := by
  unfold v2_body
  cases hcr : inp.captureResult with
  | succeeded => exact absurd hcr hc
  | timeout => rfl
  | failed => rfl

theorem v2_body_otherFail {V : Type} (t : Totals) (inp : FrameInput V)
    (hc : inp.captureResult = WaitResult.succeeded)
    (hqp : inp.queueResult ≠ WaitResult.succeeded ∨
           (inp.queueResult = WaitResult.succeeded ∧
            inp.popResult ≠ WaitResult.succeeded)) :
    v2_body t inp = (releaseCapture (acquireCapture t), StepExit.breakLoop) := by
  unfold v2_body
  rw [hc]
  rcases hqp with hq | ⟨hq, hp⟩
  · cases hqr : inp.queueResult with
    | succeeded => exact absurd hqr hq
    | timeout => rfl
    | failed => rfl
  · rw [hq]
    cases hpr : inp.popResult with
    | succeeded => exact absurd hpr hp
    | timeout => rfl
    | failed => rfl

theorem v1_body_queueFail {V : Type} (t : Totals) (inp : FrameInput V)
    (hc : inp.captureResult = WaitResult.succeeded)
    (hq : inp.queueResult ≠ WaitResult.succeeded) :
    v1_body t inp = (releaseCapture (acquireCapture t), StepExit.breakLoop) := by
  unfold v1_body
  rw [if_pos hc, if_pos hq]

theorem v1_body_captureFail {V : Type} (t : Totals) (inp : FrameInput V)
    (hc : inp.captureResult ≠ WaitResult.succeeded) :
    v1_body t inp = (t, StepExit.next) := by
  unfold v1_body
  rw [if_neg hc]

theorem v1_body_popFail {V : Type} (t : Totals) (inp : FrameInput V)
    (hc : inp.captureResult = WaitResult.succeeded)
    (hq : inp.queueResult = WaitResult.succeeded)
    (hp : inp.popResult ≠ WaitResult.succeeded) :
    v1_body t inp = (releaseCapture (acquireCapture t), StepExit.next) := by
  unfold v1_body
  rw [if_pos hc, if_neg (show ¬inp.queueResult ≠ WaitResult.succeeded from
    fun hne => hne hq), if_neg hp]

/-- C7 amended: in variant 2 every mid-loop failure (capture wait,
submission, pop-result) stops the loop at once — no retry, no frame skip —
with held resources already released, the cleanup sequence run, and the
process exiting with status 0, not a non-zero status; in variant 1 only a
submission failure does so (also exiting 0), while a capture-wait or a
pop-result failure leaves the session live: the frame is skipped and the
loop moves on to the next capture. -/
theorem mid_loop_failure_terminates_with_exit_zero {V : Type}
    (inp : FrameInput V) (rest : List (FrameInput V)) (fc : Nat) (t : Totals) :
    (inp.captureResult ≠ WaitResult.succeeded →
       v2_run (inp :: rest) fc t = RunOutcome.exited 0 true t) ∧
    (inp.captureResult = WaitResult.succeeded →
     inp.queueResult ≠ WaitResult.succeeded →
       v2_run (inp :: rest) fc t
         = RunOutcome.exited 0 true (releaseCapture (acquireCapture t)) ∧
       v1_run (inp :: rest) fc t
         = RunOutcome.exited 0 true (releaseCapture (acquireCapture t))) ∧
    (inp.captureResult = WaitResult.succeeded →
     inp.queueResult = WaitResult.succeeded →
     inp.popResult ≠ WaitResult.succeeded →
       v2_run (inp :: rest) fc t
         = RunOutcome.exited 0 true (releaseCapture (acquireCapture t))) ∧
    (inp.captureResult ≠ WaitResult.succeeded → fc + 1 < 100 →
       v1_run (inp :: rest) fc t = v1_run rest (fc + 1) t) ∧
    (inp.captureResult = WaitResult.succeeded →
     inp.queueResult = WaitResult.succeeded →
     inp.popResult ≠ WaitResult.succeeded → fc + 1 < 100 →
       v1_run (inp :: rest) fc t
         = v1_run rest (fc + 1) (releaseCapture (acquireCapture t))) := by
  refine ⟨?_, ?_, ?_, ?_, ?_⟩
  · intro hc
    rw [v2_run, v2_body_captureFail t inp hc]
  · intro hc hq
    constructor
    · rw [v2_run, v2_body_otherFail t inp hc (Or.inl hq)]
    · rw [v1_run, v1_body_queueFail t inp hc hq]
  · intro hc hq hp
    rw [v2_run, v2_body_otherFail t inp hc (Or.inr ⟨hq, hp⟩)]
  · intro hc hlt
    rw [v1_run, v1_body_captureFail t inp hc]
    simp [hlt]
  · intro hc hq hp hlt
    rw [v1_run, v1_body_popFail t inp hc hq hp]
    simp [hlt]

/-- Witness for C7 (amended) at concrete failing frames: a failed capture
stops variant 2 with exit status 0; a failed submission stops variant 1
with exit status 0; a failed capture leaves variant 1 looping on the
remaining inputs; a failed pop does the same after the capture release. -/
theorem mid_loop_failure_terminates_with_exit_zero_witness :
    v2_run [captureFailFrame, goodFrame] 0 initialTotals
      = RunOutcome.exited 0 true initialTotals ∧
    v1_run [queueFailFrame] 0 initialTotals
      = RunOutcome.exited 0 true (releaseCapture (acquireCapture initialTotals)) ∧
    v1_run [captureFailFrame, goodFrame] 0 initialTotals
      = v1_run [goodFrame] 1 initialTotals ∧
    v1_run [popFailFrame, goodFrame] 0 initialTotals
      = v1_run [goodFrame] 1 (releaseCapture (acquireCapture initialTotals)) := by
  have h1 := mid_loop_failure_terminates_with_exit_zero captureFailFrame
    [goodFrame] 0 initialTotals
  have h2 := mid_loop_failure_terminates_with_exit_zero queueFailFrame
    ([] : List (FrameInput Int)) 0 initialTotals
  have h3 := mid_loop_failure_terminates_with_exit_zero popFailFrame
    [goodFrame] 0 initialTotals
  exact ⟨h1.1 (by decide), (h2.2.1 rfl (by decide)).2,
         h1.2.2.2.1 (by decide) (by decide),
         h3.2.2.2.2 rfl rfl (by decide) (by decide)⟩

/-- C8 fails on variant 2's code: when the CUDA attempt fails, the retry
uses `K4ABT_TRACKER_CONFIG_DEFAULT` (a GPU processing mode, not the
baseline CPU mode), its result is assigned to a shadowing local and never
checked, the outer tracker handle stays NULL even when the retry succeeds,
and the pipeline proceeds to the capture loop even when both attempts
fail, instead of exiting non-zero.  Variant 1 matches the claim: its retry
uses the CPU mode, a second failure exits with status 1 before the loop,
and a successful fallback advertises the lower rate hint 4 < 10. -/
theorem v2_fallback_negotiation_divergence :
    v2_negotiate ⟨false, false⟩
      = { tracker := none, retryMode := some ProcessingMode.gpuDefaultMode,
          srateHint := 4, reachesLoop := true, exitCode := none } ∧
    (v2_negotiate ⟨false, true⟩).tracker = none ∧
    ProcessingMode.gpuDefaultMode ≠ ProcessingMode.cpu ∧
    (v2_negotiate ⟨false, false⟩).reachesLoop = true ∧
    v1_negotiate ⟨false, false⟩
      = { tracker := none, retryMode := some ProcessingMode.cpu,
          srateHint := 4, reachesLoop := false, exitCode := some 1 } ∧
    v1_negotiate ⟨false, true⟩
      = { tracker := some ProcessingMode.cpu,
          retryMode := some ProcessingMode.cpu,
          srateHint := 4, reachesLoop := true, exitCode := none } ∧
    (v1_negotiate ⟨false, true⟩).srateHint
      < (v1_negotiate ⟨true, true⟩).srateHint := by
  decide

theorem v2_body_good (t : Totals) :
    v2_body t goodFrame
      = (releaseResult (pushSample (acquireResult
          (releaseCapture (acquireCapture t)))), StepExit.next) := rfl

set_option maxRecDepth 16384 in
/-- C9 fails on variant 2's code: `frame_count` is never incremented (the
increment on line 248 is commented out), so with every collaborator call
succeeding the loop guard `frame_count < 100` stays true forever — after
any number of successful frames the loop is still live.  Variant 1, whose
guard is `++frame_count < 100`, does stop: fed 150 all-success frames it
ends normally after consuming exactly 100 of them, reaching cleanup and
`return 0`. -/
theorem v2_loop_never_terminates :
    (∀ (n : Nat) (t : Totals),
       stillLive (v2_run (List.replicate n goodFrame) 0 t)) ∧
    v1_run (List.replicate 150 goodFrame) 0 initialTotals
      = RunOutcome.exited 0 true
          ⟨100, 100, 100, 100, List.replicate 100 ChannelFormat.cft_float32⟩ := by
  constructor
  · intro n
    induction n with
    | zero => intro t; exact trivial
    | succ n ih =>
      intro t
      rw [List.replicate_succ, v2_run, v2_body_good t]
      show stillLive (if 0 < 100 then _ else _)
      rw [if_pos (by omega)]
      exact ih _
  · decide

theorem v1_body_pushFormats {V : Type} (t : Totals) (inp : FrameInput V) :
    (v1_body t inp).1.pushFormats = t.pushFormats ∨
    (v1_body t inp).1.pushFormats = t.pushFormats ++ [pushCallFormat] := by
  rcases inp with ⟨cr, qr, pr, nb, sk⟩
  cases cr <;> cases qr <;> cases pr <;> by_cases hn : 1 < nb <;>
    simp [v1_body, hn, releaseResult, pushSample, acquireResult,
      releaseCapture, acquireCapture]

theorem v2_body_pushFormats {V : Type} (t : Totals) (inp : FrameInput V) :
    (v2_body t inp).1.pushFormats = t.pushFormats ∨
    (v2_body t inp).1.pushFormats = t.pushFormats ++ [pushCallFormat] := by
  rcases inp with ⟨cr, qr, pr, nb, sk⟩
  cases cr <;> cases qr <;> cases pr <;> by_cases hn : 1 < nb <;>
    simp [v2_body, hn, releaseResult, pushSample, acquireResult,
      releaseCapture, acquireCapture]

theorem body_pushFormats_replicate {V : Type} (t : Totals) (inp : FrameInput V)
    (body : Totals → FrameInput V → Totals × StepExit)
    (hd : (body t inp).1.pushFormats = t.pushFormats ∨
          (body t inp).1.pushFormats = t.pushFormats ++ [pushCallFormat]) :
    ∃ k, (body t inp).1.pushFormats
      = t.pushFormats ++ List.replicate k pushCallFormat := by
  rcases hd with hd | hd
  · exact ⟨0, by simp [hd]⟩
  · exact ⟨1, by simp [hd, List.replicate]⟩

theorem v1_run_pushFormats {V : Type} :
    ∀ (inputs : List (FrameInput V)) (fc : Nat) (t : Totals),
      ∃ k, (runTotals (v1_run inputs fc t)).pushFormats
        = t.pushFormats ++ List.replicate k pushCallFormat := by
  intro inputs
  induction inputs with
  | nil => intro fc t; exact ⟨0, by simp [v1_run, runTotals]⟩
  | cons inp rest ih =>
    intro fc t
    obtain ⟨k1, hk1⟩ := body_pushFormats_replicate t inp v1_body
      (v1_body_pushFormats t inp)
    have hrun : v1_run (inp :: rest) fc t =
        match v1_body t inp with
        | (t', StepExit.exitProcess c) => RunOutcome.exited c false t'
        | (t', StepExit.breakLoop) => RunOutcome.exited 0 true t'
        | (t', StepExit.next) =>
          if fc + 1 < 100 then v1_run rest (fc + 1) t'
          else RunOutcome.exited 0 true t' := rfl
    cases hb : v1_body t inp with
    | mk t' e =>
      rw [hb] at hrun hk1
      cases e with
      | exitProcess c => rw [hrun]; exact ⟨k1, hk1⟩
      | breakLoop => rw [hrun]; exact ⟨k1, hk1⟩
      | next =>
        have hrun2 : v1_run (inp :: rest) fc t =
            if fc + 1 < 100 then v1_run rest (fc + 1) t'
            else RunOutcome.exited 0 true t' := hrun
        rw [hrun2]
        by_cases hlt : fc + 1 < 100
        · rw [if_pos hlt]
          obtain ⟨k2, hk2⟩ := ih (fc + 1) t'
          exact ⟨k1 + k2,
            by rw [hk2, hk1, List.append_assoc, ← List.replicate_add]⟩
        · rw [if_neg hlt]; exact ⟨k1, hk1⟩

theorem v2_run_pushFormats {V : Type} :
    ∀ (inputs : List (FrameInput V)) (fc : Nat) (t : Totals),
      ∃ k, (runTotals (v2_run inputs fc t)).pushFormats
        = t.pushFormats ++ List.replicate k pushCallFormat := by
  intro inputs
  induction inputs with
  | nil => intro fc t; exact ⟨0, by simp [v2_run, runTotals]⟩
  | cons inp rest ih =>
    intro fc t
    obtain ⟨k1, hk1⟩ := body_pushFormats_replicate t inp v2_body
      (v2_body_pushFormats t inp)
    have hrun : v2_run (inp :: rest) fc t =
        match v2_body t inp with
        | (t', StepExit.exitProcess c) => RunOutcome.exited c false t'
        | (t', StepExit.breakLoop) => RunOutcome.exited 0 true t'
        | (t', StepExit.next) =>
          if fc < 100 then v2_run rest fc t'
          else RunOutcome.exited 0 true t' := rfl
    cases hb : v2_body t inp with
    | mk t' e =>
      rw [hb] at hrun hk1
      cases e with
      | exitProcess c => rw [hrun]; exact ⟨k1, hk1⟩
      | breakLoop => rw [hrun]; exact ⟨k1, hk1⟩
      | next =>
        have hrun2 : v2_run (inp :: rest) fc t =
            if fc < 100 then v2_run rest fc t'
            else RunOutcome.exited 0 true t' := hrun
        rw [hrun2]
        by_cases hlt : fc < 100
        · rw [if_pos hlt]
          obtain ⟨k2, hk2⟩ := ih fc t'
          exact ⟨k1 + k2,
            by rw [hk2, hk1, List.append_assoc, ← List.replicate_add]⟩
        · rw [if_neg hlt]; exact ⟨k1, hk1⟩

/-- C10: for both backend outcomes both variants declare the stream's
value format as `cft_double64`, yet the only push operation either loop
ever performs is `lsl_push_sample_f`, whose buffer format is
`cft_float32`: starting from a fresh state, the list of formats pushed by
any run is a (possibly empty) repetition of `cft_float32`, which differs
from the declared `cft_double64` on every emitted frame. -/
theorem declared_double64_but_pushed_float32 {V : Type} :
    (∀ cudaOk : Bool,
       (v1_streaminfo cudaOk).channelFormat = ChannelFormat.cft_double64 ∧
       (v2_streaminfo cudaOk).channelFormat = ChannelFormat.cft_double64) ∧
    pushCallFormat = ChannelFormat.cft_float32 ∧
    ChannelFormat.cft_double64 ≠ ChannelFormat.cft_float32 ∧
    (∀ (inputs : List (FrameInput V)) (fc : Nat),
       ∃ k, (runTotals (v1_run inputs fc initialTotals)).pushFormats
         = List.replicate k ChannelFormat.cft_float32) ∧
    (∀ (inputs : List (FrameInput V)) (fc : Nat),
       ∃ k, (runTotals (v2_run inputs fc initialTotals)).pushFormats
         = List.replicate k ChannelFormat.cft_float32) := by
  refine ⟨fun _ => ⟨rfl, rfl⟩, rfl, by decide, ?_, ?_⟩
  · intro inputs fc
    obtain ⟨k, hk⟩ := v1_run_pushFormats inputs fc initialTotals
    exact ⟨k, by simpa [initialTotals, pushCallFormat] using hk⟩
  · intro inputs fc
    obtain ⟨k, hk⟩ := v2_run_pushFormats inputs fc initialTotals
    exact ⟨k, by simpa [initialTotals, pushCallFormat] using hk⟩
